import Mathlib

/-!
Shallow embedding of the CAISH service worker (src/sw.js): the cache store,
the request router (fetch handler), the three caching strategies
(cacheFirst, staleWhileRevalidate, networkFirst), the install-time precache
population and the activation sweep.  The network is modelled as a function
from URL keys to an optional response: `none` models a rejected fetch
(offline / timeout), `some r` models a fetch that resolved with response
`r` (of any status, ok or not) — exactly the fetch() API distinction the
worker's try/catch relies on.  Each strategy is a total function returning
the response handed to the caller, the cache storage after all its writes
(including the completion of stale-while-revalidate's background refresh),
and the number of network fetches it issued.
-/

namespace CaishSW

/-- Captured HTTP response: status code and body, as stored by the Cache API
and produced by the worker's `new Response(body, \x7bstatus\x7d)` calls. -/
structure Response where
  status : Nat
  body : String
deriving DecidableEq

/-- The fetch API's `response.ok`: status in the 2xx range. -/
def Response.ok (r : Response) : Bool :=
  decide (200 ≤ r.status) && decide (r.status < 300)

/-- An intercepted request, carrying the fields sw.js inspects: the URL origin,
pathname and query string, the method, and the Accept header (empty string
when absent, mirroring `request.headers.get('Accept') || ''`). -/
structure Request where
  origin : String
  pathname : String
  search : String
  method : String
  accept : String
deriving DecidableEq

/-- Cache key of a request: its URL.  All requests reaching a strategy are
same-origin (the router guarantees it), so pathname plus query identifies
the URL; the Cache API matches on the URL, headers excluded. -/
def Request.key (r : Request) : String :=
  r.pathname ++ r.search

/-- One named cache generation: an association of URL keys to captured
responses (first binding wins on lookup; put overwrites in place). -/
abbrev Cache := List (String × Response)

/-- The whole cache storage: named generations in creation order, as
enumerated by `caches.keys()` and searched by `caches.match`. -/
abbrev CacheStorage := List (String × Cache)

/-- Lookup of a key in one cache generation (`cache.match`). -/
def Cache.matchKey : Cache → String → Option Response
  | [], _ => none
  | (k0, r) :: rest, k => if k0 = k then some r else Cache.matchKey rest k

/-- Write of a key into one cache generation (`cache.put`): overwrites an
existing entry in place, otherwise appends. -/
def Cache.putEntry : Cache → String → Response → Cache
  | [], k, r => [(k, r)]
  | (k0, r0) :: rest, k, r =>
      if k0 = k then (k, r) :: rest else (k0, r0) :: Cache.putEntry rest k r

/-- The `caches.open(name)` effect on the store: creates an empty generation
of that name if none exists, otherwise leaves the store unchanged. -/
def CacheStorage.openCache : CacheStorage → String → CacheStorage
  | [], name => [(name, [])]
  | (n, c) :: rest, name =>
      if n = name then (n, c) :: rest
      else (n, c) :: CacheStorage.openCache rest name

/-- Combined `caches.open(name)` then `cache.put(key, r)` on that handle. -/
def CacheStorage.putIn : CacheStorage → String → String → Response → CacheStorage
  | [], name, k, r => [(name, Cache.putEntry [] k r)]
  | (n, c) :: rest, name, k, r =>
      if n = name then (n, Cache.putEntry c k r) :: rest
      else (n, c) :: CacheStorage.putIn rest name k r

/-- Lookup of a key inside the generation of a given name (`caches.open(name)`
followed by `cache.match(key)`); `none` when the generation is absent, which
matches the fresh empty cache `open` would create. -/
def CacheStorage.entryAt : CacheStorage → String → String → Option Response
  | [], _, _ => none
  | (n, c) :: rest, name, k =>
      if n = name then Cache.matchKey c k else CacheStorage.entryAt rest name k

/-- The global `caches.match(key)`: searches every generation in order and
returns the first hit. -/
def CacheStorage.matchAll : CacheStorage → String → Option Response
  | [], _ => none
  | (_, c) :: rest, k =>
      match Cache.matchKey c k with
      | some r => some r
      | none => CacheStorage.matchAll rest k

/-- Whether a generation of the given name exists (`caches.keys()` contains it). -/
def CacheStorage.hasCacheNamed (cs : CacheStorage) (name : String) : Bool :=
  cs.any (fun p => p.1 == name)

/-- The network: `none` models a fetch that rejects (offline, timeout),
`some r` a fetch resolving with response `r`, ok or not. -/
abbrev Network := String → Option Response

/-- Constant `CACHE_VERSION` of sw.js: the precache generation's name. -/
def CACHE_VERSION : String := "caish-v16"

/-- Constant `RUNTIME_CACHE` of sw.js: the runtime generation's name. -/
def RUNTIME_CACHE : String := "caish-runtime-v16"

/-- Constant `PRECACHE_ASSETS` of sw.js: the critical assets precached at
install. -/
def PRECACHE_ASSETS : List String :=
  ["/",
   "/index.html",
   "/fellowship.html",
   "/mars.html",
   "/events.html",
   "/about.html",
   "/desk.html",
   "/styles.css?v=d1e97105",
   "/enhancements.js?v=114f6765",
   "/images/logo.png",
   "/images/favicon.png",
   "/images/caish.gif"]

/-- Substring test on character lists, embedding JavaScript
`String.prototype.includes`. -/
def subOf (pat : List Char) : List Char → Bool
  | [] => pat.isEmpty
  | c :: cs => pat.isPrefixOf (c :: cs) || subOf pat cs

/-- Substring test on strings (`haystack.includes(needle)`). -/
def hasSubstr (s pat : String) : Bool :=
  subOf pat.data s.data

/-- Test that `pre` starts the string `s` (`s.startsWith(pre)`). -/
def strStartsWith (s pre : String) : Bool :=
  pre.data.isPrefixOf s.data

/-- Test that `suf` ends the string `s` (`s.endsWith(suf)`). -/
def strEndsWith (s suf : String) : Bool :=
  suf.data.isSuffixOf s.data

/-- Test that the string `s` contains the character `c` (`s.includes(c)`). -/
def strContainsChar (s : String) (c : Char) : Bool :=
  s.data.contains c

/-- Function `isHTMLRequest` of sw.js: Accept header mentions text/html, or
the path ends in .html, or the path is `/`, or the path has no dot and is
not `/`. -/
def isHTMLRequest (req : Request) : Bool :=
  hasSubstr req.accept "text/html" ||
  strEndsWith req.pathname ".html" ||
  req.pathname == "/" ||
  (!(strContainsChar req.pathname '.') && req.pathname != "/")

/-- Function `isStaticAsset` of sw.js: path ends in .css or .js, or contains
.woff or .woff2. -/
def isStaticAsset (pathname : String) : Bool :=
  strEndsWith pathname ".css" ||
  strEndsWith pathname ".js" ||
  hasSubstr pathname ".woff" ||
  hasSubstr pathname ".woff2"

/-- Function `isImageAsset` of sw.js: path begins with `/images/`. -/
def isImageAsset (pathname : String) : Bool :=
  strStartsWith pathname "/images/"

/-- The strategy a routed request is dispatched to, or pass-through. -/
inductive Strategy where
  | networkFirstS
  | cacheFirstS
  | staleWhileRevalidateS
deriving DecidableEq

/-- The fetch handler's routing (sw.js lines 63-91): decline cross-origin and
non-GET requests (`none`), otherwise classify, HTML first, then image, then
static asset, defaulting to network-first. -/
def route (selfOrigin : String) (req : Request) : Option Strategy :=
  if req.origin ≠ selfOrigin then none
  else if req.method ≠ "GET" then none
  else if isHTMLRequest req then some Strategy.networkFirstS
  else if isImageAsset req.pathname then some Strategy.cacheFirstS
  else if isStaticAsset req.pathname then some Strategy.staleWhileRevalidateS
  else some Strategy.networkFirstS

/-- Result of running one strategy: the response given to the caller, the
cache storage after every write of this execution (background refresh
included), and how many network fetches were issued. -/
structure StratResult where
  resp : Response
  st : CacheStorage
  fetches : Nat
deriving DecidableEq

/-- Function `cacheFirst` of sw.js: `caches.match` across all generations;
on a hit return the cached copy with no fetch; on a miss fetch, cache the
clone into the runtime generation when ok, return the live response; when
the fetch rejects return a synthetic 404 "Asset not available". -/
def cacheFirst (net : Network) (st : CacheStorage) (req : Request) : StratResult :=
  match st.matchAll req.key with
  | some cached => ⟨cached, st, 0⟩
  | none =>
      match net req.key with
      | some r =>
          if r.ok then ⟨r, st.putIn RUNTIME_CACHE req.key r, 1⟩
          else ⟨r, st, 1⟩
      | none => ⟨⟨404, "Asset not available"⟩, st, 1⟩

/-- The cache state once staleWhileRevalidate's background fetch settles:
the runtime generation is opened, and the fetched response overwrites the
entry only when the fetch resolved ok; a rejection (`none`) is swallowed. -/
def swrRefresh (net : Network) (st : CacheStorage) (req : Request) : CacheStorage :=
  let st1 := st.openCache RUNTIME_CACHE
  match net req.key with
  | some r => if r.ok then st1.putIn RUNTIME_CACHE req.key r else st1
  | none => st1

/-- Function `staleWhileRevalidate` of sw.js: open the runtime generation and
match only there; a background fetch is always issued.  On a hit the cached
copy is the caller's response and the refresh lands afterwards; on a miss
the fetch is awaited: its response is returned (cached when ok), and a
rejected fetch yields a synthetic 404 "Asset not available". -/
def staleWhileRevalidate (net : Network) (st : CacheStorage) (req : Request) : StratResult :=
  match st.entryAt RUNTIME_CACHE req.key with
  | some cached => ⟨cached, swrRefresh net st req, 1⟩
  | none =>
      match net req.key with
      | some r =>
          if r.ok then ⟨r, (st.openCache RUNTIME_CACHE).putIn RUNTIME_CACHE req.key r, 1⟩
          else ⟨r, st.openCache RUNTIME_CACHE, 1⟩
      | none => ⟨⟨404, "Asset not available"⟩, st.openCache RUNTIME_CACHE, 1⟩

/-- Function `networkFirst` of sw.js: fetch first; a resolved response is
returned as-is and cached into the runtime generation only when ok; on a
rejected fetch fall back to `caches.match` across all generations, and when
that also misses return a synthetic 503 "Resource not available". -/
def networkFirst (net : Network) (st : CacheStorage) (req : Request) : StratResult :=
  match net req.key with
  | some r =>
      if r.ok then ⟨r, st.putIn RUNTIME_CACHE req.key r, 1⟩
      else ⟨r, st, 1⟩
  | none =>
      match st.matchAll req.key with
      | some cached => ⟨cached, st, 1⟩
      | none => ⟨⟨503, "Resource not available"⟩, st, 1⟩

/-- Install-time precache population over a list of asset URLs, in order:
`cache.add(url)` fetches the URL and stores the response when it resolved
ok; a rejected fetch or a non-ok response stores nothing for that asset and
the loop continues (the per-asset `.catch` of sw.js line 39). -/
def precacheAll (net : Network) : List String → CacheStorage → CacheStorage
  | [], st => st
  | url :: rest, st =>
      precacheAll net rest
        (match net url with
         | some r => if r.ok then st.putIn CACHE_VERSION url r else st
         | none => st)

/-- The install handler of sw.js: open the precache generation, attempt every
precache asset independently (Promise.allSettled with per-asset catch), then
signal readiness (`self.skipWaiting`), modelled by the Boolean, which the
settled-all combinator makes unconditionally true. -/
def installPrecache (net : Network) (st : CacheStorage) : CacheStorage × Bool :=
  (precacheAll net PRECACHE_ASSETS (st.openCache CACHE_VERSION), true)

/-- The activate handler of sw.js: enumerate generation names and delete every
one that is neither CACHE_VERSION nor RUNTIME_CACHE. -/
def activateSweep (cs : CacheStorage) : CacheStorage :=
  cs.filter (fun p => p.1 == CACHE_VERSION || p.1 == RUNTIME_CACHE)

/-! Concrete fixtures used to evaluate the development on closed inputs. -/

/-- Origin of the site, shared by the same-origin requests below. -/
def selfOrigin : String := "https://caish.org"

/-- Stylesheet request with a cache-busting query, as in the spec scenario. -/
def reqCss : Request := ⟨selfOrigin, "/styles.css", "?v=abc", "GET", ""⟩

/-- Navigation request for a page, with an HTML Accept header. -/
def reqAbout : Request := ⟨selfOrigin, "/about.html", "", "GET", "text/html"⟩

/-- Image request with a file extension. -/
def reqImg : Request := ⟨selfOrigin, "/images/logo.png", "", "GET", ""⟩

/-- Request under the images directory but without a file extension. -/
def reqImgNoExt : Request := ⟨selfOrigin, "/images/logo", "", "GET", ""⟩

/-- Stale stylesheet body of the spec scenario. -/
def respOLD : Response := ⟨200, "OLD"⟩

/-- Fresh stylesheet body of the spec scenario. -/
def respNEW : Response := ⟨200, "NEW"⟩

/-- A server-side error response: resolved, but not ok. -/
def respERR : Response := ⟨500, "ERR"⟩

/-- Image bytes of the spec scenario. -/
def respIMG : Response := ⟨200, "X"⟩

/-- Body of a precached asset. -/
def respPRE : Response := ⟨200, "PRE"⟩

/-- Network answering the stylesheet URL with NEW, rejecting elsewhere. -/
def netNEW : Network := fun k => if k = "/styles.css?v=abc" then some respNEW else none

/-- Network rejecting every fetch (offline). -/
def netFail : Network := fun _ => none

/-- Network resolving /about.html with a 500 response, rejecting elsewhere. -/
def netERR : Network := fun k => if k = "/about.html" then some respERR else none

/-- Network resolving the image URL with X, rejecting elsewhere. -/
def netIMG : Network := fun k => if k = "/images/logo.png" then some respIMG else none

/-- Install-time network where only /index.html resolves ok and every other
precache asset's fetch rejects. -/
def netIdx : Network := fun k => if k = "/index.html" then some respPRE else none

/-- Store whose runtime generation holds OLD for the stylesheet key. -/
def stOld : CacheStorage := [(RUNTIME_CACHE, [("/styles.css?v=abc", respOLD)])]

/-- Store whose only stylesheet entry lives in the precache generation. -/
def stPreOnly : CacheStorage := [(CACHE_VERSION, [("/styles.css?v=abc", respPRE)])]

/-- Store whose runtime generation holds the image bytes X. -/
def stImg : CacheStorage := [(RUNTIME_CACHE, [("/images/logo.png", respIMG)])]

/-- The four generations of the activation-sweep scenario: the v15 pair is
stale, the v16 pair is current. -/
def stFour : CacheStorage :=
  [("caish-v15", []), ("caish-runtime-v15", []),
   ("caish-v16", []), ("caish-runtime-v16", [])]

/-! Helper lemmas about the cache store operations. -/

theorem Cache.matchKey_putEntry_self (c : Cache) (k : String) (r : Response) :
    Cache.matchKey (Cache.putEntry c k r) k = some r := by
  induction c with
  | nil => simp [Cache.putEntry, Cache.matchKey]
  | cons hd tl ih =>
      obtain ⟨k0, r0⟩ := hd
      by_cases h : k0 = k
      · simp [Cache.putEntry, h, Cache.matchKey]
      · simp [Cache.putEntry, h, Cache.matchKey, ih]

theorem Cache.matchKey_putEntry_ne (c : Cache) (k k' : String) (r : Response)
    (h : k' ≠ k) :
    Cache.matchKey (Cache.putEntry c k r) k' = Cache.matchKey c k' := by
  induction c with
  | nil =>
      have hke : ¬k = k' := fun hh => h hh.symm
      simp [Cache.putEntry, Cache.matchKey, hke]
  | cons hd tl ih =>
      obtain ⟨k0, r0⟩ := hd
      by_cases hk : k0 = k
      · subst hk
        have hke : ¬k0 = k' := fun hh => h hh.symm
        simp [Cache.putEntry, Cache.matchKey, hke]
      · simp [Cache.putEntry, hk, Cache.matchKey, ih]

theorem CacheStorage.entryAt_putIn_self (cs : CacheStorage) (name k : String)
    (r : Response) :
    CacheStorage.entryAt (CacheStorage.putIn cs name k r) name k = some r := by
  induction cs with
  | nil => simp [CacheStorage.putIn, CacheStorage.entryAt, Cache.matchKey_putEntry_self]
  | cons hd tl ih =>
      obtain ⟨n, c⟩ := hd
      by_cases h : n = name
      · simp [CacheStorage.putIn, h, CacheStorage.entryAt, Cache.matchKey_putEntry_self]
      · simp [CacheStorage.putIn, h, CacheStorage.entryAt, ih]

theorem CacheStorage.entryAt_putIn_ne (cs : CacheStorage) (name k name' k' : String)
    (r : Response) (h : name' ≠ name ∨ k' ≠ k) :
    CacheStorage.entryAt (CacheStorage.putIn cs name k r) name' k' =
      CacheStorage.entryAt cs name' k' := by
  induction cs with
  | nil =>
      by_cases hn : name = name'
      · have hk : k' ≠ k := by
          rcases h with h | h
          · exact absurd hn.symm h
          · exact h
        have hke : ¬k = k' := fun hh => hk hh.symm
        simp [CacheStorage.putIn, CacheStorage.entryAt, hn, Cache.putEntry,
          Cache.matchKey, hke]
      · simp [CacheStorage.putIn, CacheStorage.entryAt, hn]
  | cons hd tl ih =>
      obtain ⟨n, c⟩ := hd
      by_cases hn : n = name
      · subst hn
        by_cases hn' : n = name'
        · have hk : k' ≠ k := by
            rcases h with h | h
            · exact absurd hn'.symm h
            · exact h
          simp [CacheStorage.putIn, CacheStorage.entryAt, hn',
            Cache.matchKey_putEntry_ne c k k' r hk]
        · simp [CacheStorage.putIn, CacheStorage.entryAt, hn']
      · simp [CacheStorage.putIn, hn, CacheStorage.entryAt, ih]

theorem CacheStorage.entryAt_openCache (cs : CacheStorage) (name name' k : String) :
    CacheStorage.entryAt (CacheStorage.openCache cs name) name' k =
      CacheStorage.entryAt cs name' k := by
  induction cs with
  | nil =>
      by_cases h : name = name'
      · simp [CacheStorage.openCache, CacheStorage.entryAt, h, Cache.matchKey]
      · simp [CacheStorage.openCache, CacheStorage.entryAt, h]
  | cons hd tl ih =>
      obtain ⟨n, c⟩ := hd
      by_cases h : n = name
      · simp [CacheStorage.openCache, h, CacheStorage.entryAt]
      · simp [CacheStorage.openCache, h, CacheStorage.entryAt, ih]

theorem CacheStorage.matchAll_none_entryAt (cs : CacheStorage) (k : String)
    (h : CacheStorage.matchAll cs k = none) (name : String) :
    CacheStorage.entryAt cs name k = none := by
  induction cs with
  | nil => simp [CacheStorage.entryAt]
  | cons hd tl ih =>
      obtain ⟨n, c⟩ := hd
      have hm : Cache.matchKey c k = none ∧ CacheStorage.matchAll tl k = none := by
        by_cases hc : Cache.matchKey c k = none
        · refine ⟨hc, ?_⟩
          simpa [CacheStorage.matchAll, hc] using h
        · obtain ⟨r, hr⟩ := Option.ne_none_iff_exists'.mp hc
          simp [CacheStorage.matchAll, hr] at h
      by_cases hn : n = name
      · simp [CacheStorage.entryAt, hn, hm.1]
      · simp [CacheStorage.entryAt, hn, ih hm.2]

theorem CacheStorage.matchAll_putIn_of_none (cs : CacheStorage) (name k : String)
    (r : Response) (h : CacheStorage.matchAll cs k = none) :
    CacheStorage.matchAll (CacheStorage.putIn cs name k r) k = some r := by
  induction cs with
  | nil => simp [CacheStorage.putIn, CacheStorage.matchAll, Cache.matchKey_putEntry_self]
  | cons hd tl ih =>
      obtain ⟨n, c⟩ := hd
      have hm : Cache.matchKey c k = none ∧ CacheStorage.matchAll tl k = none := by
        by_cases hc : Cache.matchKey c k = none
        · refine ⟨hc, ?_⟩
          simpa [CacheStorage.matchAll, hc] using h
        · obtain ⟨r', hr⟩ := Option.ne_none_iff_exists'.mp hc
          simp [CacheStorage.matchAll, hr] at h
      by_cases hn : n = name
      · simp [CacheStorage.putIn, hn, CacheStorage.matchAll,
          Cache.matchKey_putEntry_self]
      · simp [CacheStorage.putIn, hn, CacheStorage.matchAll, hm.1, ih hm.2]

/-! Claim theorems. -/

/-- C5: after the activation sweep, a cache generation name that existed
before activation still exists if and only if it equals the current precache
version string CACHE_VERSION or the current runtime version string
RUNTIME_CACHE. -/
theorem C5_activation_sweep (cs : CacheStorage) (name : String)
    (h : CacheStorage.hasCacheNamed cs name = true) :
    CacheStorage.hasCacheNamed (activateSweep cs) name = true ↔
      (name = CACHE_VERSION ∨ name = RUNTIME_CACHE) := by
  simp only [CacheStorage.hasCacheNamed, activateSweep] at h ⊢
  rw [List.any_eq_true] at h ⊢
  constructor
  · rintro ⟨p, hp, hq⟩
    rw [List.mem_filter] at hp
    have hn : p.1 = name := by simpa using hq
    have hkeep := hp.2
    rw [hn] at hkeep
    simpa using hkeep
  · intro hor
    obtain ⟨p, hp, hq⟩ := h
    have hn : p.1 = name := by simpa using hq
    refine ⟨p, List.mem_filter.mpr ⟨hp, ?_⟩, hq⟩
    rcases hor with h1 | h1 <;> simp [hn, h1]

/-- Witness for C5 on the spec's four-generation scenario: the stale v15
precache generation is swept away while the current v16 precache generation
survives. -/
theorem C5_activation_sweep_witness :
    (CacheStorage.hasCacheNamed stFour "caish-v15" = true ∧
      ¬ CacheStorage.hasCacheNamed (activateSweep stFour) "caish-v15" = true) ∧
    (CacheStorage.hasCacheNamed stFour "caish-v16" = true ∧
      CacheStorage.hasCacheNamed (activateSweep stFour) "caish-v16" = true) := by
  refine ⟨⟨by decide, ?_⟩, ⟨by decide, ?_⟩⟩
  · intro hmem
    have := (C5_activation_sweep stFour "caish-v15" (by decide)).mp hmem
    revert this
    decide
  · exact (C5_activation_sweep stFour "caish-v16" (by decide)).mpr (by decide)

/-- C3: the cache-first strategy on a cache hit returns the cached response,
issues zero network fetches and leaves the store untouched; and a cold entry,
once fetched from network with an ok response, is a hit, so the repeat
request issues zero network fetches and is served the cached copy (at most
one fetch per cold entry). -/
theorem C3_cacheFirst_hit (net net2 netCold : Network) (st stC : CacheStorage)
    (req : Request) (cached r : Response)
    (hhit : st.matchAll req.key = some cached)
    (hmiss : stC.matchAll req.key = none)
    (hnet : netCold req.key = some r) (hok : r.ok = true) :
    ((cacheFirst net st req).resp = cached ∧
     (cacheFirst net st req).fetches = 0 ∧
     (cacheFirst net st req).st = st) ∧
    ((cacheFirst netCold stC req).fetches = 1 ∧
     (cacheFirst net2 (cacheFirst netCold stC req).st req).resp = r ∧
     (cacheFirst net2 (cacheFirst netCold stC req).st req).fetches = 0) := by
  have hhit2 : (stC.putIn RUNTIME_CACHE req.key r).matchAll req.key = some r :=
    CacheStorage.matchAll_putIn_of_none stC RUNTIME_CACHE req.key r hmiss
  refine ⟨⟨?_, ?_, ?_⟩, ?_, ?_, ?_⟩ <;>
    simp [cacheFirst, hhit, hmiss, hnet, hok, hhit2]

/-- Witness for C3: the image scenario — a cold fetch of /images/logo.png
stores X; the repeat request against the updated store returns X with zero
fetches, even with the network now offline. -/
theorem C3_cacheFirst_hit_witness :
    ((cacheFirst netFail stImg reqImg).resp = respIMG ∧
     (cacheFirst netFail stImg reqImg).fetches = 0 ∧
     (cacheFirst netFail stImg reqImg).st = stImg) ∧
    ((cacheFirst netIMG [] reqImg).fetches = 1 ∧
     (cacheFirst netFail (cacheFirst netIMG [] reqImg).st reqImg).resp = respIMG ∧
     (cacheFirst netFail (cacheFirst netIMG [] reqImg).st reqImg).fetches = 0) :=
  C3_cacheFirst_hit netFail netFail netIMG stImg [] reqImg respIMG respIMG
    (by decide) (by decide) (by decide) (by decide)

/-- C6: no strategy throws to the caller — each is a total function into
responses — and on a rejected fetch with no usable cached copy each returns
its synthetic response: 404 "Asset not available" for cache-first and
stale-while-revalidate, 503 "Resource not available" for network-first. -/
theorem C6_synthetic_errors (net : Network) (st : CacheStorage) (req : Request)
    (hnet : net req.key = none) (hmiss : st.matchAll req.key = none) :
    (cacheFirst net st req).resp = ⟨404, "Asset not available"⟩ ∧
    (staleWhileRevalidate net st req).resp = ⟨404, "Asset not available"⟩ ∧
    (networkFirst net st req).resp = ⟨503, "Resource not available"⟩ := by
  have hm : st.entryAt RUNTIME_CACHE req.key = none :=
    CacheStorage.matchAll_none_entryAt st req.key hmiss RUNTIME_CACHE
  refine ⟨?_, ?_, ?_⟩ <;>
    simp [cacheFirst, staleWhileRevalidate, networkFirst, hnet, hmiss, hm]

/-- Witness for C6: offline network and empty cache yield the synthetic
404 and 503 responses. -/
theorem C6_synthetic_errors_witness :
    (cacheFirst netFail [] reqImg).resp = ⟨404, "Asset not available"⟩ ∧
    (staleWhileRevalidate netFail [] reqCss).resp = ⟨404, "Asset not available"⟩ ∧
    (networkFirst netFail [] reqAbout).resp = ⟨503, "Resource not available"⟩ :=
  ⟨(C6_synthetic_errors netFail [] reqImg rfl rfl).1,
   (C6_synthetic_errors netFail [] reqCss rfl rfl).2.1,
   (C6_synthetic_errors netFail [] reqAbout rfl rfl).2.2⟩

/-- C2: stale-while-revalidate on a runtime-cache hit returns the cached copy
for any network whatsoever (the caller does not await the background fetch),
the background fetch's ok result overwrites the runtime entry so a subsequent
identical request returns the refreshed value, and a failing background fetch
is silently ignored: the caller still gets the cached copy and the entry is
untouched. -/
theorem C2_staleWhileRevalidate_hit (net netA net2 netF : Network)
    (st : CacheStorage) (req : Request) (old nr : Response)
    (hhit : st.entryAt RUNTIME_CACHE req.key = some old)
    (hnet : net req.key = some nr) (hok : nr.ok = true)
    (hfail : netF req.key = none) :
    (staleWhileRevalidate netA st req).resp = old ∧
    (staleWhileRevalidate net st req).st.entryAt RUNTIME_CACHE req.key = some nr ∧
    (staleWhileRevalidate net2 (staleWhileRevalidate net st req).st req).resp = nr ∧
    (staleWhileRevalidate netF st req).resp = old ∧
    (staleWhileRevalidate netF st req).st.entryAt RUNTIME_CACHE req.key = some old := by
  have h2 : (staleWhileRevalidate net st req).st.entryAt RUNTIME_CACHE req.key = some nr := by
    simp [staleWhileRevalidate, hhit, swrRefresh, hnet, hok,
      CacheStorage.entryAt_putIn_self]
  refine ⟨?_, h2, ?_, ?_, ?_⟩
  · simp [staleWhileRevalidate, hhit]
  · generalize hst : (staleWhileRevalidate net st req).st = st2 at h2
    simp [staleWhileRevalidate, h2]
  · simp [staleWhileRevalidate, hhit]
  · simp [staleWhileRevalidate, hhit, swrRefresh, hfail,
      CacheStorage.entryAt_openCache]

/-- Witness for C2 on the spec scenario: /styles.css?v=abc with cached OLD
and network NEW returns OLD immediately (even under an offline network), the
refresh lands NEW in the runtime generation, the subsequent request returns
NEW, and a failed refresh leaves OLD served and stored. -/
theorem C2_staleWhileRevalidate_hit_witness :
    (staleWhileRevalidate netNEW stOld reqCss).resp = respOLD ∧
    (staleWhileRevalidate netNEW stOld reqCss).st.entryAt RUNTIME_CACHE reqCss.key
      = some respNEW ∧
    (staleWhileRevalidate netFail (staleWhileRevalidate netNEW stOld reqCss).st
      reqCss).resp = respNEW ∧
    (staleWhileRevalidate netFail stOld reqCss).resp = respOLD ∧
    (staleWhileRevalidate netFail stOld reqCss).st.entryAt RUNTIME_CACHE reqCss.key
      = some respOLD :=
  C2_staleWhileRevalidate_hit netNEW netNEW netFail netFail stOld reqCss
    respOLD respNEW (by decide) (by decide) (by decide) (by decide)

/-- Counterexample to C1 as stated: the fetch of /about.html succeeds
(it resolves, here with a 500 response), the live response is returned to the
caller, yet no copy is stored into the runtime generation under the
request's key — the code only caches ok responses. -/
theorem C1_counterexample :
    netERR reqAbout.key = some respERR ∧
    (networkFirst netERR [] reqAbout).resp = respERR ∧
    (networkFirst netERR [] reqAbout).st.entryAt RUNTIME_CACHE reqAbout.key = none := by
  refine ⟨by decide, by decide, by decide⟩

/-- C1 amended: for a network-first request whose fetch resolves, the caller
always receives the live network response; a copy is stored into the runtime
generation under the request's key exactly when that response is ok (2xx),
and a non-ok resolution leaves the store untouched. -/
theorem C1_networkFirst_live (net : Network) (st : CacheStorage) (req : Request)
    (r : Response) (hnet : net req.key = some r) :
    (networkFirst net st req).resp = r ∧
    (r.ok = true →
      (networkFirst net st req).st.entryAt RUNTIME_CACHE req.key = some r) ∧
    (r.ok = false → (networkFirst net st req).st = st) := by
  by_cases hok : r.ok
  · refine ⟨?_, fun _ => ?_, fun hf => by simp [hok] at hf⟩
    · simp [networkFirst, hnet, hok]
    · simp [networkFirst, hnet, hok, CacheStorage.entryAt_putIn_self]
  · have hok' : r.ok = false := by simpa using hok
    refine ⟨?_, fun ht => absurd ht hok, fun _ => ?_⟩ <;>
      simp [networkFirst, hnet, hok']

/-- Witness for C1 amended: the spec's navigation scenario — cached OLD for
the stylesheet key plays no role; fetching /about.html over a network that
returns NEW for it yields NEW to the caller and stores NEW. -/
theorem C1_networkFirst_live_witness :
    (networkFirst netERR stOld reqAbout).resp = respERR ∧
    (networkFirst netERR stOld reqAbout).st = stOld :=
  (fun h => ⟨h.1, h.2.2 (by decide)⟩)
    (C1_networkFirst_live netERR stOld reqAbout respERR (by decide))

/-- Counterexample to C4 as stated: /images/logo is a same-origin GET whose
path begins with /images/, yet the router classifies it as HTML (extensionless
path) and dispatches network-first, not cache-first. -/
theorem C4_counterexample :
    isImageAsset reqImgNoExt.pathname = true ∧
    route selfOrigin reqImgNoExt = some Strategy.networkFirstS ∧
    ¬ route selfOrigin reqImgNoExt = some Strategy.cacheFirstS := by
  refine ⟨by decide, by decide, by decide⟩

/-- C4 amended: a same-origin GET request whose path begins with /images/ and
which the HTML classification does not capture first (the router checks
isHTMLRequest before isImageAsset) is dispatched to the cache-first strategy,
the unique strategy of the image class. -/
theorem C4_route_image (selfO : String) (req : Request)
    (horigin : req.origin = selfO) (hmethod : req.method = "GET")
    (himg : isImageAsset req.pathname = true)
    (hhtml : isHTMLRequest req = false) :
    route selfO req = some Strategy.cacheFirstS := by
  simp [route, horigin, hmethod, hhtml, himg]

/-- Witness for C4 amended: /images/logo.png with a non-HTML Accept header is
routed to cache-first. -/
theorem C4_route_image_witness :
    route selfOrigin reqImg = some Strategy.cacheFirstS :=
  C4_route_image selfOrigin reqImg (by decide) (by decide) (by decide) (by decide)

/-- Running the precache loop preserves an already-stored entry for an asset
whose own fetch resolves ok: later iterations either touch other keys or
rewrite the same response. -/
theorem precacheAll_preserve (net : Network) (l : List String) (st : CacheStorage)
    (url : String) (r : Response) (hnet : net url = some r) (hok : r.ok = true)
    (hst : st.entryAt CACHE_VERSION url = some r) :
    (precacheAll net l st).entryAt CACHE_VERSION url = some r := by
  induction l generalizing st with
  | nil => simpa [precacheAll] using hst
  | cons u rest ih =>
      by_cases hu : u = url
      · subst hu
        simpa [precacheAll, hnet, hok] using
          ih (st.putIn CACHE_VERSION u r)
            (CacheStorage.entryAt_putIn_self st CACHE_VERSION u r)
      · have hne : url ≠ u := fun hh => hu hh.symm
        cases hnu : net u with
        | none => simpa [precacheAll, hnu] using ih st hst
        | some ru =>
            by_cases hru : ru.ok = true
            · have hpres : (st.putIn CACHE_VERSION u ru).entryAt CACHE_VERSION url
                  = some r := by
                rw [CacheStorage.entryAt_putIn_ne st CACHE_VERSION u CACHE_VERSION url
                  ru (Or.inr hne)]
                exact hst
              simpa [precacheAll, hnu, hru] using ih _ hpres
            · have hru' : ru.ok = false := by simpa using hru
              simpa [precacheAll, hnu, hru'] using ih st hst

/-- An asset of the precache list whose fetch resolves ok ends up stored by
the precache loop, whatever the network does on the other assets. -/
theorem precacheAll_mem (net : Network) (l : List String) (st : CacheStorage)
    (url : String) (r : Response) (hmem : url ∈ l)
    (hnet : net url = some r) (hok : r.ok = true) :
    (precacheAll net l st).entryAt CACHE_VERSION url = some r := by
  induction l generalizing st with
  | nil => cases hmem
  | cons u rest ih =>
      by_cases hu : u = url
      · subst hu
        simpa [precacheAll, hnet, hok] using
          precacheAll_preserve net rest (st.putIn CACHE_VERSION u r) u r hnet hok
            (CacheStorage.entryAt_putIn_self st CACHE_VERSION u r)
      · have hmem' : url ∈ rest := by
          cases List.mem_cons.mp hmem with
          | inl h => exact absurd h.symm hu
          | inr h => exact h
        cases hnu : net u with
        | none => simpa [precacheAll, hnu] using ih st hmem'
        | some ru =>
            by_cases hru : ru.ok = true
            · simpa [precacheAll, hnu, hru] using
                ih (st.putIn CACHE_VERSION u ru) hmem'
            · have hru' : ru.ok = false := by simpa using hru
              simpa [precacheAll, hnu, hru'] using ih st hmem'

/-- C7: no strategy writes a non-ok response: when the fetch resolves with a
response that is not ok, every cache entry of every generation reads exactly
as before the strategy ran, for all three strategies. -/
theorem C7_only_ok_written (net : Network) (st : CacheStorage) (req : Request)
    (r : Response) (name k : String)
    (hnet : net req.key = some r) (hok : r.ok = false) :
    (cacheFirst net st req).st.entryAt name k = st.entryAt name k ∧
    (staleWhileRevalidate net st req).st.entryAt name k = st.entryAt name k ∧
    (networkFirst net st req).st.entryAt name k = st.entryAt name k := by
  refine ⟨?_, ?_, ?_⟩
  · cases hm : st.matchAll req.key <;> simp [cacheFirst, hm, hnet, hok]
  · cases hm : st.entryAt RUNTIME_CACHE req.key <;>
      simp [staleWhileRevalidate, swrRefresh, hm, hnet, hok,
        CacheStorage.entryAt_openCache]
  · simp [networkFirst, hnet, hok]

/-- Witness for C7: a 500 resolution for /about.html leaves the stylesheet
generation's entries untouched under all three strategies. -/
theorem C7_only_ok_written_witness :
    (cacheFirst netERR stOld reqAbout).st.entryAt RUNTIME_CACHE "/styles.css?v=abc"
      = stOld.entryAt RUNTIME_CACHE "/styles.css?v=abc" ∧
    (staleWhileRevalidate netERR stOld reqAbout).st.entryAt RUNTIME_CACHE
      "/styles.css?v=abc" = stOld.entryAt RUNTIME_CACHE "/styles.css?v=abc" ∧
    (networkFirst netERR stOld reqAbout).st.entryAt RUNTIME_CACHE
      "/styles.css?v=abc" = stOld.entryAt RUNTIME_CACHE "/styles.css?v=abc" :=
  C7_only_ok_written netERR stOld reqAbout respERR RUNTIME_CACHE
    "/styles.css?v=abc" (by decide) (by decide)

/-- C8: precache population is per-asset independent — any asset of the
precache list whose fetch resolves ok is stored into the precache generation
no matter how the network treats every other asset (any subset of them may
fail) — and installation signals readiness unconditionally. -/
theorem C8_install_independent (net : Network) (st : CacheStorage) (url : String)
    (r : Response) (hmem : url ∈ PRECACHE_ASSETS)
    (hnet : net url = some r) (hok : r.ok = true) :
    (installPrecache net st).1.entryAt CACHE_VERSION url = some r ∧
    (installPrecache net st).2 = true :=
  ⟨precacheAll_mem net PRECACHE_ASSETS (st.openCache CACHE_VERSION) url r
    hmem hnet hok, rfl⟩

/-- Witness for C8: with a network where every precache asset's fetch rejects
except /index.html, install still stores /index.html and completes. -/
theorem C8_install_independent_witness :
    (installPrecache netIdx []).1.entryAt CACHE_VERSION "/index.html"
      = some respPRE ∧
    (installPrecache netIdx []).2 = true :=
  C8_install_independent netIdx [] "/index.html" respPRE (by decide)
    (by decide) (by decide)

/-- C9: stale-while-revalidate consults only the runtime generation — with an
entry present only in the precache generation it behaves as a cache miss: it
awaits the network fetch and returns its resolution, or the synthetic 404
when the fetch rejects, never the precached copy. -/
theorem C9_swr_ignores_precache (net netF : Network) (st : CacheStorage)
    (req : Request) (p r : Response)
    (hpre : st.entryAt CACHE_VERSION req.key = some p)
    (hrunMiss : st.entryAt RUNTIME_CACHE req.key = none)
    (hnet : net req.key = some r) (hfail : netF req.key = none) :
    (staleWhileRevalidate net st req).resp = r ∧
    (staleWhileRevalidate netF st req).resp = ⟨404, "Asset not available"⟩ := by
  constructor
  · by_cases hok : r.ok = true
    · simp [staleWhileRevalidate, hrunMiss, hnet, hok]
    · have hok' : r.ok = false := by simpa using hok
      simp [staleWhileRevalidate, hrunMiss, hnet, hok']
  · simp [staleWhileRevalidate, hrunMiss, hfail]

/-- Witness for C9: the stylesheet precached as PRE but absent from the
runtime generation is not served by stale-while-revalidate — the live NEW is
returned, and the synthetic 404 when the network rejects. -/
theorem C9_swr_ignores_precache_witness :
    (staleWhileRevalidate netNEW stPreOnly reqCss).resp = respNEW ∧
    (staleWhileRevalidate netFail stPreOnly reqCss).resp
      = ⟨404, "Asset not available"⟩ :=
  C9_swr_ignores_precache netNEW netFail stPreOnly reqCss respPRE respNEW
    (by decide) (by decide) (by decide) (by decide)

/-- C10: a fetch resolving with a non-ok status is a success, not a failure:
network-first returns it unchanged without ever consulting the cache
fallback, cache-first and stale-while-revalidate return it unchanged on their
cache-miss paths, and no strategy writes it to any cache generation. -/
theorem C10_non_ok_is_success (net : Network) (st : CacheStorage) (req : Request)
    (r : Response) (name k : String)
    (hnet : net req.key = some r) (hok : r.ok = false) :
    (networkFirst net st req).resp = r ∧
    (st.matchAll req.key = none → (cacheFirst net st req).resp = r) ∧
    (st.entryAt RUNTIME_CACHE req.key = none →
      (staleWhileRevalidate net st req).resp = r) ∧
    (networkFirst net st req).st.entryAt name k = st.entryAt name k ∧
    (cacheFirst net st req).st.entryAt name k = st.entryAt name k ∧
    (staleWhileRevalidate net st req).st.entryAt name k = st.entryAt name k := by
  refine ⟨?_, fun hm => ?_, fun hm => ?_, ?_, ?_, ?_⟩
  · simp [networkFirst, hnet, hok]
  · simp [cacheFirst, hm, hnet, hok]
  · simp [staleWhileRevalidate, hm, hnet, hok]
  · simp [networkFirst, hnet, hok]
  · cases hm : st.matchAll req.key <;> simp [cacheFirst, hm, hnet, hok]
  · cases hm : st.entryAt RUNTIME_CACHE req.key <;>
      simp [staleWhileRevalidate, swrRefresh, hm, hnet, hok,
        CacheStorage.entryAt_openCache]

/-- Witness for C10: the 500 resolution of /about.html is handed back by all
three strategies on a cold store — network-first does so even though the
stylesheet generation holds entries — and nothing is written anywhere. -/
theorem C10_non_ok_is_success_witness :
    (networkFirst netERR [] reqAbout).resp = respERR ∧
    (cacheFirst netERR [] reqAbout).resp = respERR ∧
    (staleWhileRevalidate netERR [] reqAbout).resp = respERR ∧
    (networkFirst netERR [] reqAbout).st.entryAt RUNTIME_CACHE reqAbout.key
      = CacheStorage.entryAt [] RUNTIME_CACHE reqAbout.key := by
  obtain ⟨h1, h2, h3, h4, h5, h6⟩ :=
    C10_non_ok_is_success netERR [] reqAbout respERR RUNTIME_CACHE reqAbout.key
      (by decide) (by decide)
  exact ⟨h1, h2 (by decide), h3 (by decide), h4⟩

end CaishSW
